import Mathlib

/-!
Verification of the posture-evaluation logic of the exercise-coach
repository (`src/app.py`, `src/server/app.py`).

The numeric code is embedded over the real numbers: Python floats become
`ℝ`, `math.hypot` becomes `Real.sqrt` of the sum of squares, `math.acos`
becomes `Real.arccos` and `math.degrees` multiplies by `180 / π`.
Per-frame loop bodies become explicit state-passing functions; the pose
source's output for a frame is `Option` of a record of the landmarks the
evaluator reads.
-/

namespace AppV1

open Real

/-- `math.hypot x y`: the Euclidean norm of the 2D vector `(x, y)`. -/
noncomputable def hypot (x y : ℝ) : ℝ := Real.sqrt (x ^ 2 + y ^ 2)

/-- `math.degrees`: radians to degrees. -/
noncomputable def degrees (x : ℝ) : ℝ := x * 180 / Real.pi

/-- The clamp `max(-1, min(1, cosine_angle))` from `calculate_angle`
(`src/app.py` line 18, `src/server/app.py` line 105). -/
noncomputable def clampCosine (x : ℝ) : ℝ := max (-1) (min 1 x)

/-- `calculate_angle(a, b, c)` from `src/app.py` lines 9-19 (the copy in
`src/server/app.py` lines 96-106 is textually identical): the angle at
vertex `b` between rays to `a` and `c`, in degrees, with a zero guard for
degenerate vectors. -/
noncomputable def calculate_angle (a b c : ℝ × ℝ) : ℝ :=
  let ba : ℝ × ℝ := (a.1 - b.1, a.2 - b.2)
  let bc : ℝ × ℝ := (c.1 - b.1, c.2 - b.2)
  let dot := ba.1 * bc.1 + ba.2 * bc.2
  let norm_ba := hypot ba.1 ba.2
  let norm_bc := hypot bc.1 bc.2
  if norm_ba * norm_bc = 0 then 0
  else degrees (Real.arccos (clampCosine (dot / (norm_ba * norm_bc))))

/-- The angle calculator as the spec describes it (§4.1): form BA = A−B and
BC = C−B; if the product of their magnitudes is exactly zero return 0;
otherwise clamp dot/(|BA|·|BC|) to [−1, 1] and return arccos in degrees. -/
noncomputable def angleSpecRef (a b c : ℝ × ℝ) : ℝ :=
  let bax := a.1 - b.1
  let bay := a.2 - b.2
  let bcx := c.1 - b.1
  let bcy := c.2 - b.2
  let magBA := Real.sqrt (bax ^ 2 + bay ^ 2)
  let magBC := Real.sqrt (bcx ^ 2 + bcy ^ 2)
  if magBA * magBC = 0 then 0
  else Real.arccos (min 1 (max (-1) ((bax * bcx + bay * bcy) / (magBA * magBC)))) * 180 / Real.pi

lemma clampCosine_eq_min_max (x : ℝ) : clampCosine x = min 1 (max (-1) x) := by
  unfold clampCosine
  rw [max_min_distrib_left]
  norm_num

lemma clampCosine_mem (x : ℝ) : -1 ≤ clampCosine x ∧ clampCosine x ≤ 1 := by
  refine ⟨le_max_left _ _, max_le (by norm_num) (min_le_left _ _)⟩

lemma degrees_nonneg {x : ℝ} (h : 0 ≤ x) : 0 ≤ degrees x := by
  unfold degrees
  positivity

lemma degrees_le_of_le_pi {x : ℝ} (h : x ≤ Real.pi) : degrees x ≤ 180 := by
  unfold degrees
  rw [div_le_iff₀ Real.pi_pos]
  calc x * 180 ≤ Real.pi * 180 := by nlinarith [Real.pi_pos]
    _ = 180 * Real.pi := by ring

lemma calculate_angle_nonneg (a b c : ℝ × ℝ) : 0 ≤ calculate_angle a b c := by
  unfold calculate_angle
  dsimp only
  split
  · exact le_refl 0
  · exact degrees_nonneg (Real.arccos_nonneg _)

lemma calculate_angle_le_180 (a b c : ℝ × ℝ) : calculate_angle a b c ≤ 180 := by
  unfold calculate_angle
  dsimp only
  split
  · norm_num
  · exact degrees_le_of_le_pi (Real.arccos_le_pi _)

/-- C1: `calculate_angle` agrees everywhere with the spec's reference
description of the angle calculator: BA = A−B, BC = C−B, zero when the
magnitude product is exactly zero (no domain error), otherwise arccos in
degrees of the cosine clamped to [−1, 1]. -/
theorem calculate_angle_eq_spec :
    ∀ a b c : ℝ × ℝ, calculate_angle a b c = angleSpecRef a b c := by
  intro a b c
  unfold calculate_angle angleSpecRef hypot degrees
  dsimp only
  rw [clampCosine_eq_min_max]

/-- C2: the angle returned by `calculate_angle` always lies in [0, 180],
and the clamp applied to the cosine always lands in [−1, 1], so the
inverse-cosine step can never see an out-of-domain argument. -/
theorem calculate_angle_range :
    (∀ a b c : ℝ × ℝ, 0 ≤ calculate_angle a b c ∧ calculate_angle a b c ≤ 180) ∧
    (∀ x : ℝ, -1 ≤ clampCosine x ∧ clampCosine x ≤ 1) := by
  constructor
  · intro a b c
    exact ⟨calculate_angle_nonneg a b c, calculate_angle_le_180 a b c⟩
  · exact clampCosine_mem

/-- A pose landmark as consumed by the evaluators: normalized image
coordinates, scaled by frame width/height before use. -/
structure PoseLandmark where
  x : ℝ
  y : ℝ

/-- Convert a landmark's normalized coordinates to pixel coordinates
(`landmark.x * w, landmark.y * h` in the source). -/
noncomputable def toPixel (lm : PoseLandmark) (w h : ℝ) : ℝ × ℝ := (lm.x * w, lm.y * h)

/-- The landmarks the plank loop reads from a detected pose
(`src/app.py` lines 63-65). -/
structure PlankDetection where
  left_ear : PoseLandmark
  left_shoulder : PoseLandmark
  left_hip : PoseLandmark

/-- The back angle computed by the plank loop (`src/app.py` lines 67-70). -/
noncomputable def plankAngle (d : PlankDetection) (w h : ℝ) : ℝ :=
  calculate_angle (toPixel d.left_ear w h) (toPixel d.left_shoulder w h)
    (toPixel d.left_hip w h)

/-- The two plank modes offered by the UI (`src/app.py` lines 205-212). -/
inductive PlankMode
  | Normal
  | Hardcore

open Classical in
/-- `in_good_position` for one frame (`src/app.py` lines 57-79): `false`
when the pose source detected no landmarks, otherwise the acceptance test
`160 <= angle <= 200` on the ear-shoulder-hip angle. -/
noncomputable def in_good_position (det : Option PlankDetection) (w h : ℝ) : Bool :=
  match det with
  | none => false
  | some d => decide (160 ≤ plankAngle d w h ∧ plankAngle d w h ≤ 200)

/-- The elapsed-good-time update of one plank frame (`src/app.py` lines
85-90): accrue the wall-clock delta on good form; on bad form reset to 0 in
Hardcore mode and leave unchanged in Normal mode. -/
noncomputable def plankFrameUpdate (mode : PlankMode) (elapsed delta : ℝ)
    (det : Option PlankDetection) (w h : ℝ) : ℝ :=
  if in_good_position det w h then elapsed + delta
  else
    match mode with
    | PlankMode.Hardcore => 0
    | PlankMode.Normal => elapsed

/-- `remaining = max(target_time - elapsed, 0)` (`src/app.py` line 92). -/
noncomputable def plankRemaining (target elapsed : ℝ) : ℝ := max (target - elapsed) 0

open Classical in
/-- The completion test `remaining <= 0` of `src/app.py` line 98. -/
noncomputable def plankComplete (target elapsed : ℝ) : Bool :=
  decide (plankRemaining target elapsed ≤ 0)

/-- C3: in Hardcore (reset-on-break) mode, a single frame evaluated as bad
form drives elapsed-good-time to exactly 0, whatever it was before. -/
theorem hardcore_reset_on_break (elapsed delta : ℝ) (det : Option PlankDetection)
    (w h : ℝ) (hbad : in_good_position det w h = false) :
    plankFrameUpdate PlankMode.Hardcore elapsed delta det w h = 0 := by
  unfold plankFrameUpdate
  rw [hbad]
  simp

/-- Witness for C3 at a concrete input: 37 seconds of accrued good time and
a no-detection (hence bad-form) frame reset the clock to 0. -/
theorem hardcore_reset_on_break_witness :
    plankFrameUpdate PlankMode.Hardcore 37 2 none 640 480 = 0 :=
  hardcore_reset_on_break 37 2 none 640 480 rfl

/-- C4: in Normal (pause-on-break) mode a bad-form frame leaves
elapsed-good-time exactly as it was, while in either mode a good-form frame
adds exactly the wall-clock delta. -/
theorem normal_pause_and_good_accrual (elapsed delta : ℝ)
    (det : Option PlankDetection) (w h : ℝ) :
    (in_good_position det w h = false →
      plankFrameUpdate PlankMode.Normal elapsed delta det w h = elapsed) ∧
    (in_good_position det w h = true →
      plankFrameUpdate PlankMode.Normal elapsed delta det w h = elapsed + delta ∧
      plankFrameUpdate PlankMode.Hardcore elapsed delta det w h = elapsed + delta) := by
  constructor
  · intro hbad
    unfold plankFrameUpdate
    rw [hbad]
    simp
  · intro hgood
    unfold plankFrameUpdate
    rw [hgood]
    simp

/-- The spec's straight-back scenario: ear (100,50), shoulder (100,150),
hip (100,250), already in pixel coordinates (frame scale 1). -/
def straightD : PlankDetection :=
  ⟨⟨100, 50⟩, ⟨100, 150⟩, ⟨100, 250⟩⟩

lemma straight_angle : calculate_angle (100, 50) (100, 150) (100, 250) = 180 := by
  have h1 : hypot (100 - 100 : ℝ) (50 - 150 : ℝ) = 100 := by
    unfold hypot
    rw [show ((100 - 100 : ℝ) ^ 2 + (50 - 150 : ℝ) ^ 2) = 100 ^ 2 by norm_num]
    exact Real.sqrt_sq (by norm_num)
  have h2 : hypot (100 - 100 : ℝ) (250 - 150 : ℝ) = 100 := by
    unfold hypot
    rw [show ((100 - 100 : ℝ) ^ 2 + (250 - 150 : ℝ) ^ 2) = 100 ^ 2 by norm_num]
    exact Real.sqrt_sq (by norm_num)
  unfold calculate_angle
  dsimp only
  rw [h1, h2, if_neg (by norm_num)]
  rw [show ((100 - 100 : ℝ) * (100 - 100) + (50 - 150) * (250 - 150)) / ((100 : ℝ) * 100)
      = -1 by norm_num]
  rw [show clampCosine (-1 : ℝ) = -1 by unfold clampCosine; norm_num]
  rw [Real.arccos_neg_one]
  unfold degrees
  rw [mul_comm, mul_div_assoc, div_self Real.pi_ne_zero, mul_one]

lemma plankAngle_straight : plankAngle straightD 1 1 = 180 := by
  unfold plankAngle toPixel straightD
  dsimp only
  simp only [mul_one]
  exact straight_angle

lemma straight_good : in_good_position (some straightD) 1 1 = true := by
  unfold in_good_position
  apply decide_eq_true
  rw [plankAngle_straight]
  norm_num

/-- Witness for C4 at concrete inputs: a no-detection (bad-form) frame in
Normal mode keeps 5 seconds of good time at 5; a straight-back frame adds
the 2-second delta. -/
theorem normal_pause_and_good_accrual_witness :
    plankFrameUpdate PlankMode.Normal 5 2 none 640 480 = 5 ∧
    plankFrameUpdate PlankMode.Normal 5 2 (some straightD) 1 1 = 5 + 2 :=
  ⟨(normal_pause_and_good_accrual 5 2 none 640 480).1 rfl,
   ((normal_pause_and_good_accrual 5 2 (some straightD) 1 1).2 straight_good).1⟩

lemma plankComplete_iff_le (target e : ℝ) : plankComplete target e = true ↔ target ≤ e := by
  unfold plankComplete plankRemaining
  rw [decide_eq_true_eq, max_le_iff]
  constructor
  · intro h
    linarith [h.1]
  · intro h
    exact ⟨by linarith, le_refl 0⟩

/-- One iteration's worth of input to the plank loop: the wall-clock delta
since the previous iteration and the pose source's output for the frame. -/
structure PlankFrame where
  delta : ℝ
  det : Option PlankDetection
  w : ℝ
  h : ℝ

/-- The successive values of `elapsed` produced by the plank loop body
(`src/app.py` lines 44-102) over a list of frames, ignoring the early exit. -/
noncomputable def plankTrace (mode : PlankMode) (elapsed : ℝ) :
    List PlankFrame → List ℝ
  | [] => []
  | f :: fs =>
    let e := plankFrameUpdate mode elapsed f.delta f.det f.w f.h
    e :: plankTrace mode e fs

/-- The frame index (0-based) at which the plank loop takes its
`remaining <= 0` success exit (`src/app.py` lines 98-100), `none` when the
frame list ends first. -/
noncomputable def plankCompletesAt (mode : PlankMode) (target elapsed : ℝ) :
    List PlankFrame → Option Nat
  | [] => none
  | f :: fs =>
    let e := plankFrameUpdate mode elapsed f.delta f.det f.w f.h
    if plankComplete target e then some 0
    else Option.map (fun k => k + 1) (plankCompletesAt mode target e fs)

/-- C5: the completion test of a single frame passes exactly when
elapsed-good-time has reached the target, and over any frame sequence the
session completes at frame `n` exactly when the elapsed value after frame
`n`'s update has reached the target and the value after every earlier
frame's update had not. -/
theorem plank_completion_iff :
    (∀ target e : ℝ, plankComplete target e = true ↔ target ≤ e) ∧
    (∀ (mode : PlankMode) (target : ℝ) (fs : List PlankFrame) (e0 : ℝ) (n : ℕ),
      plankCompletesAt mode target e0 fs = some n ↔
        ((∃ e, (plankTrace mode e0 fs)[n]? = some e ∧ target ≤ e) ∧
         ∀ m, m < n → ∀ e, (plankTrace mode e0 fs)[m]? = some e → e < target)) := by
  refine ⟨plankComplete_iff_le, ?_⟩
  intro mode target fs
  induction fs with
  | nil =>
    intro e0 n
    simp [plankCompletesAt, plankTrace]
  | cons f fs ih =>
    intro e0 n
    simp only [plankCompletesAt, plankTrace]
    by_cases hc : plankComplete target
        (plankFrameUpdate mode e0 f.delta f.det f.w f.h) = true
    · rw [if_pos hc]
      have hle := (plankComplete_iff_le _ _).mp hc
      match n with
      | 0 =>
        simp only [List.getElem?_cons_zero]
        constructor
        · intro _
          exact ⟨⟨_, rfl, hle⟩, by omega⟩
        · intro _
          trivial
      | Nat.succ k =>
        constructor
        · intro hsome
          exact absurd hsome (by simp)
        · intro ⟨_, hall⟩
          have := hall 0 (Nat.succ_pos k) _ List.getElem?_cons_zero
          linarith
    · rw [if_neg hc]
      have hlt : plankFrameUpdate mode e0 f.delta f.det f.w f.h < target := by
        by_contra hge
        exact hc ((plankComplete_iff_le _ _).mpr (le_of_not_lt hge))
      match n with
      | 0 =>
        constructor
        · intro hsome
          rcases Option.map_eq_some'.mp hsome with ⟨k, _, hk1⟩
          omega
        · intro h0
          rcases h0.1 with ⟨e, he, hte⟩
          rw [List.getElem?_cons_zero] at he
          rw [← Option.some.inj he] at hte
          linarith
      | Nat.succ k =>
        rw [show (Option.map (fun k => k + 1)
              (plankCompletesAt mode target
                (plankFrameUpdate mode e0 f.delta f.det f.w f.h) fs) = some (k + 1)) ↔
            (plankCompletesAt mode target
                (plankFrameUpdate mode e0 f.delta f.det f.w f.h) fs = some k) by
          simp [Option.map_eq_some]]
        rw [ih _ k]
        simp only [List.getElem?_cons_succ]
        constructor
        · intro ⟨hex, hall⟩
          refine ⟨hex, ?_⟩
          intro m hm e he
          match m with
          | 0 =>
            rw [List.getElem?_cons_zero] at he
            rw [← Option.some.inj he]
            exact hlt
          | Nat.succ j =>
            rw [List.getElem?_cons_succ] at he
            exact hall j (by omega) e he
        · intro ⟨hex, hall⟩
          refine ⟨hex, ?_⟩
          intro m hm e he
          exact hall (m + 1) (by omega) e (by rw [List.getElem?_cons_succ]; exact he)

/-- The landmarks the criss-cross loop reads from a detected pose
(`src/app.py` lines 141-156). -/
structure CrissCrossDetection where
  left_wrist : PoseLandmark
  right_wrist : PoseLandmark
  left_shoulder : PoseLandmark
  right_shoulder : PoseLandmark
  left_ankle : PoseLandmark
  right_ankle : PoseLandmark

/-- `hand_distance` (`src/app.py` line 151): pixel distance between the
two wrists. -/
noncomputable def hand_distance (d : CrissCrossDetection) (w h : ℝ) : ℝ :=
  hypot ((toPixel d.left_wrist w h).1 - (toPixel d.right_wrist w h).1)
    ((toPixel d.left_wrist w h).2 - (toPixel d.right_wrist w h).2)

open Classical in
/-- `hands_together` (`src/app.py` line 152): both wrists strictly above
(smaller pixel y than) their shoulders and wrist distance below 100. -/
noncomputable def hands_together (d : CrissCrossDetection) (w h : ℝ) : Bool :=
  decide ((toPixel d.left_wrist w h).2 < (toPixel d.left_shoulder w h).2 ∧
    (toPixel d.right_wrist w h).2 < (toPixel d.right_shoulder w h).2 ∧
    hand_distance d w h < 100)

/-- `leg_distance` (`src/app.py` line 159): pixel distance between the
two ankles. -/
noncomputable def leg_distance (d : CrissCrossDetection) (w h : ℝ) : ℝ :=
  hypot ((toPixel d.left_ankle w h).1 - (toPixel d.right_ankle w h).1)
    ((toPixel d.left_ankle w h).2 - (toPixel d.right_ankle w h).2)

open Classical in
/-- `legs_spread` (`src/app.py` line 160): ankle distance at least 150. -/
noncomputable def legs_spread (d : CrissCrossDetection) (w h : ℝ) : Bool :=
  decide (150 ≤ leg_distance d w h)

/-- `in_correct_position` for one criss-cross frame (`src/app.py` lines
134-162): false with no detection, otherwise hands-together AND
legs-spread. -/
noncomputable def in_correct_position (det : Option CrissCrossDetection) (w h : ℝ) : Bool :=
  match det with
  | none => false
  | some d => hands_together d w h && legs_spread d w h

open Classical in
/-- One iteration of the criss-cross loop (`src/app.py` lines 126-189),
restricted to its observable per-frame effect: the form verdict, whether
the beep fired (`src/app.py` lines 174-177), and the new last-beep
timestamp. -/
noncomputable def crissCrossStep (interval lastBeep now : ℝ)
    (det : Option CrissCrossDetection) (w h : ℝ) : Bool × Bool × ℝ :=
  let inPos := in_correct_position det w h
  if interval ≤ now - lastBeep then (inPos, true, now) else (inPos, false, lastBeep)

/-- C6: with a detected pose, the criss-cross verdict is `true` exactly
when both wrists have strictly lower pixel y than their respective
shoulders and the Euclidean wrist distance is below 100, and the Euclidean
ankle distance is at or above 150. -/
theorem criss_cross_correct_iff :
    ∀ (d : CrissCrossDetection) (w h : ℝ),
      in_correct_position (some d) w h = true ↔
        ((d.left_wrist.y * h < d.left_shoulder.y * h ∧
          d.right_wrist.y * h < d.right_shoulder.y * h ∧
          Real.sqrt ((d.left_wrist.x * w - d.right_wrist.x * w) ^ 2 +
            (d.left_wrist.y * h - d.right_wrist.y * h) ^ 2) < 100) ∧
         150 ≤ Real.sqrt ((d.left_ankle.x * w - d.right_ankle.x * w) ^ 2 +
            (d.left_ankle.y * h - d.right_ankle.y * h) ^ 2)) := by
  intro d w h
  unfold in_correct_position hands_together legs_spread hand_distance leg_distance
    hypot toPixel
  dsimp only
  rw [Bool.and_eq_true, decide_eq_true_eq, decide_eq_true_eq]

/-- C7: on every criss-cross iteration the cue fires exactly when the time
since the last firing has reached the interval; a firing resets the
last-fired timestamp to the current time and a non-firing leaves it; and
the cue decision and timestamp are the same whatever the pose source
returned for the frame. -/
theorem beep_cadence :
    ∀ (interval lastBeep now : ℝ) (det det2 : Option CrissCrossDetection)
      (w h w2 h2 : ℝ),
      ((crissCrossStep interval lastBeep now det w h).2.1 = true ↔
        interval ≤ now - lastBeep) ∧
      ((crissCrossStep interval lastBeep now det w h).2.1 = true →
        (crissCrossStep interval lastBeep now det w h).2.2 = now) ∧
      ((crissCrossStep interval lastBeep now det w h).2.1 = false →
        (crissCrossStep interval lastBeep now det w h).2.2 = lastBeep) ∧
      (crissCrossStep interval lastBeep now det w h).2 =
        (crissCrossStep interval lastBeep now det2 w2 h2).2 := by
  intro interval lastBeep now det det2 w h w2 h2
  unfold crissCrossStep
  dsimp only
  by_cases hfire : interval ≤ now - lastBeep
  · rw [if_pos hfire, if_pos hfire]
    refine ⟨⟨fun _ => hfire, fun _ => rfl⟩, fun _ => rfl, fun hcontra => ?_, rfl⟩
    simp at hcontra
  · rw [if_neg hfire, if_neg hfire]
    refine ⟨⟨fun hcontra => ?_, fun hyes => absurd hyes hfire⟩, fun hcontra => ?_,
      fun _ => rfl, rfl⟩
    · simp at hcontra
    · simp at hcontra

/-- The JSON payload `process_frame` builds (`src/server/app.py` lines
149-154 and 247-252): verdict flag, truncated angle (or null), message,
and the echoed landmark list. -/
structure PoseResponse where
  posture_correct : Bool
  angle : Option ℤ
  message : String
  landmarks : List PoseLandmark

/-- The default response returned on any failure or no-detection path
(`src/server/app.py` lines 149-154). -/
def noPoseResponse : PoseResponse :=
  ⟨false, none, "No pose detected", []⟩

open Classical in
/-- `process_frame` of `src/server/app.py` lines 148-259, from the pose
source's output onward (base64 decoding and logging are host glue): when
no landmarks are detected, or reading the ear/shoulder/hip landmarks
(indices 7, 11, 23) fails, the default "No pose detected" response comes
back; otherwise the back angle is computed, the 160-200 band decides the
verdict, and the angle is reported truncated to an integer. -/
noncomputable def process_frame (det : Option (List PoseLandmark)) (w h : ℝ) :
    PoseResponse :=
  match det with
  | none => noPoseResponse
  | some lms =>
    match lms[7]?, lms[11]?, lms[23]? with
    | some ear, some sh, some hip =>
      let angle := calculate_angle (toPixel ear w h) (toPixel sh w h) (toPixel hip w h)
      let ok := decide (160 ≤ angle ∧ angle ≤ 200)
      ⟨ok, some ⌊angle⌋, if ok then "Good posture!" else "Adjust your position!", lms⟩
    | _, _, _ => noPoseResponse

/-- C8: a frame with no detected landmarks is an ordinary input, never an
error: the plank loop evaluates it as bad form, so Hardcore mode zeroes
the elapsed good time and Normal mode leaves it unchanged, and the server
returns exactly the "No pose detected" verdict with a false form flag, a
null angle and an empty landmark list. -/
theorem no_detection_handling :
    ∀ (w h elapsed delta : ℝ),
      in_good_position none w h = false ∧
      plankFrameUpdate PlankMode.Hardcore elapsed delta none w h = 0 ∧
      plankFrameUpdate PlankMode.Normal elapsed delta none w h = elapsed ∧
      process_frame none w h = noPoseResponse ∧
      (process_frame none w h).posture_correct = false ∧
      (process_frame none w h).angle = none ∧
      (process_frame none w h).message = "No pose detected" := by
  intro w h elapsed delta
  refine ⟨rfl, ?_, ?_, rfl, rfl, rfl, rfl⟩
  · unfold plankFrameUpdate
    rw [show in_good_position none w h = false from rfl]
    simp
  · unfold plankFrameUpdate
    rw [show in_good_position none w h = false from rfl]
    simp

/-- C10: because the computed angle never exceeds 180, the acceptance band
`160 <= angle <= 200` collapses to `160 <= angle` for every input; the
upper bound never binds, both in the raw test on `calculate_angle` and in
the plank loop's per-frame verdict on a detected pose. -/
theorem acceptance_band_upper_bound_unreachable :
    (∀ a b c : ℝ × ℝ,
      ((160 ≤ calculate_angle a b c ∧ calculate_angle a b c ≤ 200) ↔
        160 ≤ calculate_angle a b c)) ∧
    (∀ (d : PlankDetection) (w h : ℝ),
      (in_good_position (some d) w h = true ↔ 160 ≤ plankAngle d w h)) := by
  constructor
  · intro a b c
    constructor
    · intro hand
      exact hand.1
    · intro hlow
      exact ⟨hlow, le_trans (calculate_angle_le_180 a b c) (by norm_num)⟩
  · intro d w h
    unfold in_good_position
    rw [decide_eq_true_eq]
    constructor
    · intro hand
      exact hand.1
    · intro hlow
      exact ⟨hlow, le_trans (calculate_angle_le_180 _ _ _) (by norm_num)⟩

/-- The spec's "bent back" scenario: ear (50,50), shoulder (100,150),
hip (200,250), already in pixel coordinates (frame scale 1). -/
def bentD : PlankDetection :=
  ⟨⟨50, 50⟩, ⟨100, 150⟩, ⟨200, 250⟩⟩

lemma sqrt_ten_pos : (0 : ℝ) < Real.sqrt 10 := Real.sqrt_pos.mpr (by norm_num)

lemma bent_cosine_bounds :
    -1 ≤ -(3 / Real.sqrt 10) ∧ -(3 / Real.sqrt 10) ≤ 1 := by
  have h3 : (3 : ℝ) ≤ Real.sqrt 10 := by
    rw [show (3 : ℝ) = Real.sqrt 9 by
      rw [show (9 : ℝ) = 3 ^ 2 by norm_num]
      exact (Real.sqrt_sq (by norm_num)).symm]
    exact Real.sqrt_le_sqrt (by norm_num)
  have hle1 : 3 / Real.sqrt 10 ≤ 1 := (div_le_one sqrt_ten_pos).mpr h3
  have hpos : 0 ≤ 3 / Real.sqrt 10 := by positivity
  constructor
  · linarith
  · linarith

lemma bent_angle_eq :
    calculate_angle (50, 50) (100, 150) (200, 250) =
      degrees (Real.arccos (-(3 / Real.sqrt 10))) := by
  have h1 : hypot (50 - 100 : ℝ) (50 - 150 : ℝ) = Real.sqrt 12500 := by
    unfold hypot
    norm_num
  have h2 : hypot (200 - 100 : ℝ) (250 - 150 : ℝ) = Real.sqrt 20000 := by
    unfold hypot
    norm_num
  have hprod : Real.sqrt 12500 * Real.sqrt 20000 = 5000 * Real.sqrt 10 := by
    rw [← Real.sqrt_mul (by norm_num) 20000]
    rw [show (12500 : ℝ) * 20000 = 5000 ^ 2 * 10 by norm_num]
    rw [Real.sqrt_mul (by positivity) 10, Real.sqrt_sq (by norm_num)]
  have hcos : ((50 - 100 : ℝ) * (200 - 100) + (50 - 150) * (250 - 150)) /
      (5000 * Real.sqrt 10) = -(3 / Real.sqrt 10) := by
    rw [show ((50 - 100 : ℝ) * (200 - 100) + (50 - 150) * (250 - 150)) = -15000 by
      norm_num]
    rw [div_mul_eq_div_div, neg_div, neg_div]
    norm_num
  unfold calculate_angle
  dsimp only
  rw [h1, h2, hprod, if_neg (by positivity), hcos]
  rw [show clampCosine (-(3 / Real.sqrt 10)) = -(3 / Real.sqrt 10) by
    unfold clampCosine
    rw [min_eq_right bent_cosine_bounds.2, max_eq_right bent_cosine_bounds.1]]

lemma cos_pi_ninth_le : Real.cos (Real.pi / 9) ≤ 3 / Real.sqrt 10 := by
  have hmono : Real.cos (Real.pi / 9) ≤ Real.cos 0.348 := by
    apply Real.cos_le_cos_of_nonneg_of_le_pi (by norm_num)
    · linarith [Real.pi_pos]
    · linarith [Real.pi_gt_d2]
  have htaylor : Real.cos 0.348 ≤ 0.9403 := by
    have hb := Real.cos_bound (x := 0.348) (by rw [abs_of_nonneg] <;> norm_num)
    rw [abs_le] at hb
    have := hb.2
    rw [abs_of_nonneg (by norm_num : (0 : ℝ) ≤ 0.348)] at this
    nlinarith
  have hsqrt17 : Real.sqrt 10 ≤ 3.17 := by
    rw [show (3.17 : ℝ) = Real.sqrt (3.17 ^ 2) from (Real.sqrt_sq (by norm_num)).symm]
    exact Real.sqrt_le_sqrt (by norm_num)
  have hdiv : (0.9403 : ℝ) ≤ 3 / Real.sqrt 10 := by
    have h1 : (3 : ℝ) / 3.17 ≤ 3 / Real.sqrt 10 := by
      rw [div_le_div_iff₀ (by norm_num) sqrt_ten_pos]
      nlinarith [hsqrt17]
    calc (0.9403 : ℝ) ≤ 3 / 3.17 := by norm_num
      _ ≤ 3 / Real.sqrt 10 := h1
  linarith

lemma arccos_antitone {x y : ℝ} (h : x ≤ y) :
    Real.arccos y ≤ Real.arccos x := by
  rw [Real.arccos_eq_pi_div_two_sub_arcsin, Real.arccos_eq_pi_div_two_sub_arcsin]
  have := Real.monotone_arcsin h
  linarith

lemma bent_arccos_ge :
    8 * Real.pi / 9 ≤ Real.arccos (-(3 / Real.sqrt 10)) := by
  have hcos : -(3 / Real.sqrt 10) ≤ Real.cos (8 * Real.pi / 9) := by
    rw [show 8 * Real.pi / 9 = Real.pi - Real.pi / 9 by ring, Real.cos_pi_sub]
    linarith [cos_pi_ninth_le]
  have h1 : Real.arccos (Real.cos (8 * Real.pi / 9)) ≤
      Real.arccos (-(3 / Real.sqrt 10)) := arccos_antitone hcos
  rw [Real.arccos_cos (by positivity) (by linarith [Real.pi_pos])] at h1
  exact h1

lemma bent_angle_ge : 160 ≤ calculate_angle (50, 50) (100, 150) (200, 250) := by
  rw [bent_angle_eq]
  unfold degrees
  rw [le_div_iff₀ Real.pi_pos]
  nlinarith [bent_arccos_ge, Real.pi_pos]

lemma plankAngle_bent :
    plankAngle bentD 1 1 = calculate_angle (50, 50) (100, 150) (200, 250) := by
  unfold plankAngle toPixel bentD
  dsimp only
  simp only [mul_one]

/-- Counterexample to C9: at ear (50,50), shoulder (100,150), hip
(200,250) the claim's conclusion is false on both counts: the computed
angle is at least 160 degrees (about 161.6, not "notably less than 160")
and the hold evaluator judges the form correct, not incorrect. -/
theorem bent_scenario_claim_false :
    160 ≤ plankAngle bentD 1 1 ∧ in_good_position (some bentD) 1 1 = true := by
  have hge : 160 ≤ plankAngle bentD 1 1 := by
    rw [plankAngle_bent]
    exact bent_angle_ge
  refine ⟨hge, ?_⟩
  unfold in_good_position
  exact decide_eq_true ⟨hge, le_trans (calculate_angle_le_180 _ _ _) (by norm_num)⟩

/-- C9 amended: at ear (50,50), shoulder (100,150), hip (200,250) the
computed ear-shoulder-hip angle is at least 160 degrees (about 161.6), it
lies inside the 160-200 acceptance band, and the hold evaluator judges the
form correct. -/
theorem bent_scenario_form_correct :
    160 ≤ plankAngle bentD 1 1 ∧ plankAngle bentD 1 1 ≤ 200 ∧
      in_good_position (some bentD) 1 1 = true := by
  have hge : 160 ≤ plankAngle bentD 1 1 := by
    rw [plankAngle_bent]
    exact bent_angle_ge
  have hle : plankAngle bentD 1 1 ≤ 200 :=
    le_trans (calculate_angle_le_180 _ _ _) (by norm_num)
  refine ⟨hge, hle, ?_⟩
  unfold in_good_position
  exact decide_eq_true ⟨hge, hle⟩

end AppV1
